import Mathlib

/-!
Verification development for the zentinel mock-server agent.

The Rust sources (`src/config.rs`, `src/matcher.rs`, `src/template.rs`,
`src/agent.rs`) are shallowly embedded below.  Strings are modelled by
`String` / `List Char`; Rust `HashMap`s are modelled by association lists
with replace-on-insert semantics; machine counters (`u32`/`u64`) are
modelled by `Nat` (the program only increments them, wraparound past
2^64 is not modelled); `f64` probability values are carried as `Rat`
and only ever compared, never computed with.

External crates (the `regex` and `globset` engines, `serde_json`'s
parser, `jsonpath_rust`, the handlebars renderer, the SDK's `Decision`
builder and the random-number generator) are external collaborators of
the repository; each is modelled by a small definition faithful to the
crate's documented behaviour on the fragment the program exercises, or
is taken as an explicit oracle parameter, as documented at each site.
-/

/-! ### Basic list/char utilities used by the embedding -/

/-- The character with a left-brace glyph (written by code to avoid brace
literals inside strings). -/
def lbrace : Char := Char.ofNat 123

/-- The character with a right-brace glyph. -/
def rbrace : Char := Char.ofNat 125

/-- Does the list `s` start with the list `pre`?  Mirrors Rust
`str::starts_with`. -/
def listStartsWith : List Char → List Char → Bool
  | [], _ => true
  | _ :: _, [] => false
  | a :: as, b :: bs => a = b && listStartsWith as bs

/-- Index of the first occurrence of `needle` as a contiguous sublist of
`hay`; mirrors Rust `str::find(&str)`. -/
def findSub? (needle : List Char) : List Char → Option Nat
  | [] => if needle.isEmpty then some 0 else none
  | c :: rest =>
      if listStartsWith needle (c :: rest) then some 0
      else (findSub? needle rest).map (· + 1)

/-- Does `needle` occur as a contiguous sublist of `hay`?  Mirrors Rust
`str::contains(&str)`. -/
def containsSub (needle hay : List Char) : Bool :=
  (findSub? needle hay).isSome

/-- Index of the first occurrence of the character `c`; mirrors Rust
`str::find(char)`. -/
def findChar? (c : Char) : List Char → Option Nat
  | [] => none
  | a :: rest => if a = c then some 0 else (findChar? c rest).map (· + 1)

/-- Lookup in an association list; mirrors `HashMap::get`. -/
def lookupStr (m : List (String × String)) (k : String) : Option String :=
  (m.find? (fun kv => kv.1 = k)).map (·.2)

/-- Insert into an association list, replacing any existing binding;
mirrors `HashMap::insert` (key set semantics; iteration order of the
model is list order). -/
def insertReplace (m : List (String × String)) (k v : String) : List (String × String) :=
  if (m.find? (fun kv => kv.1 = k)).isSome then
    m.map (fun kv => if kv.1 = k then (kv.1, v) else kv)
  else
    m ++ [(k, v)]

/-! ### Path templates (src/matcher.rs, `PathTemplate`) -/

/-- A parsed segment of a path template: `TemplateSegment` in
src/matcher.rs. -/
inductive TemplateSegment where
  | literal (s : String)
  | param (name : String)
deriving DecidableEq, Repr

/-- Accumulator loop of `PathTemplate::parse`: walks the characters with
the `current` literal buffer, the `in_param` flag and the pending
parameter name. -/
def parseSegs : List Char → String → Bool → String → List TemplateSegment
  | [], current, _, _ =>
      if current.isEmpty then [] else [TemplateSegment.literal current]
  | ch :: rest, current, inParam, paramName =>
      if ch = lbrace ∧ inParam = false then
        if current.isEmpty then parseSegs rest "" true ""
        else TemplateSegment.literal current :: parseSegs rest "" true ""
      else if ch = rbrace ∧ inParam = true then
        TemplateSegment.param paramName :: parseSegs rest current false ""
      else if inParam then
        parseSegs rest current true (paramName.push ch)
      else
        parseSegs rest (current.push ch) inParam paramName

/-- `PathTemplate::parse` from src/matcher.rs. -/
def PathTemplate.parse (template : String) : List TemplateSegment :=
  parseSegs template.data "" false ""

/-- The first `Literal` segment anywhere in the list: the Rust code's
`self.segments.iter().skip_while(|s| !matches!(s, Literal(_))).next()`
(note: the scan starts at the head of the whole segment list). -/
def firstLit : List TemplateSegment → Option String
  | [] => none
  | TemplateSegment.literal s :: _ => some s
  | TemplateSegment.param _ :: rest => firstLit rest

/-- The segment-consuming loop of `PathTemplate::matches`.  `all` is the
full segment list (used by the parameter lookahead exactly as in the
source), the second argument is the remaining segments, then the
remaining path characters and the parameter map accumulated so far. -/
def tmGo (all : List TemplateSegment) :
    List TemplateSegment → List Char → List (String × String) →
    Option (List (String × String))
  | [], remaining, params =>
      if remaining.isEmpty then some params else none
  | TemplateSegment.literal lit :: rest, remaining, params =>
      if listStartsWith lit.data remaining then
        tmGo all rest (remaining.drop lit.data.length) params
      else
        none
  | TemplateSegment.param name :: rest, remaining, params =>
      let endPos :=
        match firstLit all with
        | some nextLit => (findSub? nextLit.data remaining).getD remaining.length
        | none => (findChar? '/' remaining).getD remaining.length
      if endPos = 0 then none
      else
        tmGo all rest (remaining.drop endPos)
          (insertReplace params name (String.mk (remaining.take endPos)))

/-- `PathTemplate::matches` from src/matcher.rs. -/
def PathTemplate.matches (segments : List TemplateSegment) (path : String) :
    Option (List (String × String)) :=
  tmGo segments segments path.data []

/-! ### JSON values (the `serde_json::Value` data the config carries)

`serde_json::Value` is modelled by the inductive below; numbers are
restricted to integers (the configs the claims exercise carry no
floating-point scalars). -/

/-- Model of `serde_json::Value`. -/
inductive Json where
  | null
  | bool (b : Bool)
  | num (n : Int)
  | str (s : String)
  | arr (items : List Json)
  | obj (fields : List (String × Json))
deriving Repr

/-- Escape one character for JSON string output, as `serde_json` does. -/
def jsonEscapeChar (c : Char) : List Char :=
  if c = '"' then ['\\', '"']
  else if c = '\\' then ['\\', '\\']
  else if c = Char.ofNat 10 then ['\\', 'n']
  else if c = Char.ofNat 13 then ['\\', 'r']
  else if c = Char.ofNat 9 then ['\\', 't']
  else [c]

mutual

/-- Compact serialization of a JSON value: models
`serde_json::to_string` / `to_vec` (which agree on output bytes). -/
def jsonCompact : Json → String
  | Json.null => "null"
  | Json.bool true => "true"
  | Json.bool false => "false"
  | Json.num n => toString n
  | Json.str s => String.mk ('"' :: (s.data.flatMap jsonEscapeChar) ++ ['"'])
  | Json.arr items =>
      String.mk ('[' :: (jsonCompactSepList items).data ++ [']'])
  | Json.obj fields =>
      String.mk (lbrace :: (jsonCompactSepFields fields).data ++ [rbrace])

/-- Comma-separated serialization of array elements. -/
def jsonCompactSepList : List Json → String
  | [] => ""
  | [v] => jsonCompact v
  | v :: rest => jsonCompact v ++ "," ++ jsonCompactSepList rest

/-- Comma-separated serialization of object fields. -/
def jsonCompactSepFields : List (String × Json) → String
  | [] => ""
  | [(k, v)] => jsonCompact (Json.str k) ++ ":" ++ jsonCompact v
  | (k, v) :: rest =>
      jsonCompact (Json.str k) ++ ":" ++ jsonCompact v ++ "," ++
      jsonCompactSepFields rest

end

/-! ### Regex and glob engines (external crates)

The `regex` and `globset` crates are external collaborators.  They are
modelled on the fragment of patterns the development exercises:
patterns built only from ASCII letters, digits, and the characters
`/ _ - :` have no metacharacters, compile successfully, and (for
`regex`) `is_match` succeeds exactly when the pattern occurs as a
substring of the haystack, while a full-valued (anchored) match is
string equality; a `globset` literal pattern matches exactly the equal
path.  Any other pattern is treated as failing to compile, matching the
crates' behaviour on, e.g., the invalid patterns `"("` and `"["`. -/

/-- Characters admitted in the metacharacter-free pattern fragment. -/
def plainPatternChar (c : Char) : Bool :=
  c.isAlphanum || c = '/' || c = '_' || c = '-' || c = ':'

/-- A compiled regular expression of the modelled fragment: a literal
pattern. -/
structure CompiledRegex where
  lit : String
deriving DecidableEq, Repr

/-- `Regex::new`: compiles exactly the metacharacter-free patterns of
the modelled fragment. -/
def Regex.new (pattern : String) : Option CompiledRegex :=
  if pattern.data.all plainPatternChar then some ⟨pattern⟩ else none

/-- `Regex::is_match`: an unanchored search — the literal pattern must
occur somewhere in the haystack. -/
def CompiledRegex.is_match (re : CompiledRegex) (s : String) : Bool :=
  containsSub re.lit.data s.data

/-- A full-valued (whole-string, anchored) regex test of a literal
pattern is string equality.  This is the reading used by the spec for
query clauses; it is not what the code calls. -/
def CompiledRegex.isFullMatch (re : CompiledRegex) (s : String) : Bool :=
  s = re.lit

/-- `globset::Glob::new`: compiles exactly the wildcard-free patterns of
the modelled fragment. -/
def Glob.new (pattern : String) : Option String :=
  if pattern.data.all plainPatternChar then some pattern else none

/-- `GlobMatcher::is_match` for a wildcard-free glob: whole-path
equality. -/
def Glob.is_match (glob path : String) : Bool :=
  path = glob

/-! ### Configuration model (src/config.rs) -/

/-- `PathMatcher` from src/config.rs (`prefixOf` names the `Prefix`
variant). -/
inductive PathMatcher where
  | exact (value : String)
  | prefixOf (value : String)
  | regex (pattern : String)
  | glob (pattern : String)
  | template (template : String)
deriving DecidableEq, Repr

/-- `QueryMatcher` from src/config.rs. -/
inductive QueryMatcher where
  | exact (value : String)
  | regex (pattern : String)
  | present
  | absent
deriving DecidableEq, Repr

/-- `HeaderMatcher` from src/config.rs. -/
inductive HeaderMatcher where
  | exact (value : String)
  | regex (pattern : String)
  | present
  | absent
  | contains (value : String)
deriving DecidableEq, Repr

/-- `BodyMatcher` from src/config.rs (`expressions` is the JsonPath
map, modelled as an association list). -/
inductive BodyMatcher where
  | exact (value : String)
  | regex (pattern : String)
  | jsonPath (expressions : List (String × Json))
  | contains (value : String)
  | json
  | empty
deriving Repr

/-- `RequestMatcher` from src/config.rs. -/
structure RequestMatcher where
  method : List String
  path : Option PathMatcher
  query : List (String × QueryMatcher)
  headers : List (String × HeaderMatcher)
  body : Option BodyMatcher
deriving Repr

/-- `ResponseBody` from src/config.rs. -/
inductive ResponseBody where
  | text (content : String)
  | json (content : Json)
  | base64 (content : String)
  | file (path : String)
deriving Repr

/-- `ResponseDefinition` from src/config.rs. -/
structure ResponseDefinition where
  status : Nat
  headers : List (String × String)
  body : Option ResponseBody
  template : Bool
deriving Repr

/-- `DelayConfig` from src/config.rs. -/
structure DelayConfig where
  fixed_ms : Nat
  min_ms : Nat
  max_ms : Nat
deriving DecidableEq, Repr

/-- `FaultConfig` from src/config.rs; the `f64` probability is carried
as a rational and only ever compared against a draw. -/
inductive FaultConfig where
  | error (status : Nat) (message : Option String)
  | timeout (duration_ms : Nat)
  | empty
  | corrupt (probability : Rat)
  | slowResponse (bytes_per_second : Nat)
deriving Repr

/-- `StubDefinition` from src/config.rs. -/
structure StubDefinition where
  id : String
  name : Option String
  request : RequestMatcher
  response : ResponseDefinition
  priority : Int
  enabled : Bool
  max_matches : Nat
  delay : Option DelayConfig
  fault : Option FaultConfig
deriving Repr

/-- `GlobalSettings` from src/config.rs. -/
structure GlobalSettings where
  log_matches : Bool
  log_unmatched : Bool
  passthrough_unmatched : Bool
  default_content_type : String
  case_insensitive_headers : Bool
deriving DecidableEq, Repr

/-- `GlobalSettings::default`. -/
def GlobalSettings.default : GlobalSettings :=
  ⟨true, true, false, "application/json", true⟩

/-- `MockServerConfig` from src/config.rs. -/
structure MockServerConfig where
  stubs : List StubDefinition
  settings : GlobalSettings
  default_response : Option ResponseDefinition
deriving Repr

/-! ### Validation (src/config.rs, `validate`) -/

/-- `PathMatcher::validate`: regex and glob patterns must compile. -/
def PathMatcher.validate : PathMatcher → Except String Unit
  | PathMatcher.regex pattern =>
      match Regex.new pattern with
      | some _ => Except.ok ()
      | none => Except.error "Invalid regex"
  | PathMatcher.glob pattern =>
      match Glob.new pattern with
      | some _ => Except.ok ()
      | none => Except.error "Invalid glob"
  | _ => Except.ok ()

/-- `RequestMatcher::validate`. -/
def RequestMatcher.validate (m : RequestMatcher) : Except String Unit :=
  match m.path with
  | some p => p.validate
  | none => Except.ok ()

/-- `ResponseDefinition::validate`: status must lie in 100..=599. -/
def ResponseDefinition.validate (r : ResponseDefinition) : Except String Unit :=
  if r.status < 100 ∨ r.status > 599 then Except.error "Invalid status code"
  else Except.ok ()

/-- `StubDefinition::validate`. -/
def StubDefinition.validate (s : StubDefinition) : Except String Unit := do
  if s.id.isEmpty then throw "Stub id cannot be empty"
  s.request.validate
  s.response.validate

/-- The indexed loop of `MockServerConfig::validate`. -/
def validateStubs : Nat → List StubDefinition → Except String Unit
  | _, [] => Except.ok ()
  | i, s :: rest =>
      match s.validate with
      | Except.ok () => validateStubs (i + 1) rest
      | Except.error e => Except.error ("Stub " ++ toString i ++ ": " ++ e)

/-- `MockServerConfig::validate` from src/config.rs: validates each stub
in turn (and nothing else — in particular it performs no duplicate-id
check). -/
def MockServerConfig.validate (c : MockServerConfig) : Except String Unit :=
  validateStubs 0 c.stubs

/-! ### Request bytes and external parsing oracles -/

/-- A request body byte string, classified by UTF-8 validity: a valid
sequence is represented by its decoding, an invalid one by its raw
bytes.  `asString?` mirrors `std::str::from_utf8(..).ok()`. -/
inductive Bytes where
  | utf8 (s : String)
  | invalid (raw : List Nat)
deriving DecidableEq, Repr

/-- `std::str::from_utf8(b).ok()` on the modelled bytes. -/
def Bytes.asString? : Bytes → Option String
  | Bytes.utf8 s => some s
  | Bytes.invalid _ => none

/-- `<[u8]>::is_empty` on the modelled bytes. -/
def Bytes.isEmpty : Bytes → Bool
  | Bytes.utf8 s => s.isEmpty
  | Bytes.invalid raw => raw.isEmpty

/-- Oracles for the remaining external parsers: `serde_json::from_str`
and the `jsonpath_rust` evaluator (`JsonPath::try_from` composed with
`find`; `none` models a path expression that fails to parse).  The
theorems below hold for every instantiation. -/
structure ExtCrates where
  jsonParse? : String → Option Json
  jsonPathFind? : String → Json → Option Json

/-! ### Query-string parsing (src/matcher.rs, `parse_query_string`) -/

/-- Hex value of a character, accepting both cases, as
`u8::from_str_radix(_, 16)` does per digit. -/
def hexVal? (c : Char) : Option Nat :=
  if '0' ≤ c ∧ c ≤ '9' then some (c.toNat - 48)
  else if 'a' ≤ c ∧ c ≤ 'f' then some (c.toNat - 87)
  else if 'A' ≤ c ∧ c ≤ 'F' then some (c.toNat - 70)
  else none

/-- `urlencoding_decode` from src/matcher.rs: percent-decoding with
`+` → space; a malformed escape is copied through verbatim. -/
def urlencoding_decode (cs : List Char) : List Char :=
  match cs with
  | [] => []
  | ch :: rest =>
      if ch = '%' then
        match rest with
        | a :: b :: rest2 =>
            match hexVal? a, hexVal? b with
            | some ha, some hb => Char.ofNat (ha * 16 + hb) :: urlencoding_decode rest2
            | _, _ => '%' :: a :: b :: urlencoding_decode rest2
        | [a] => ['%', a]
        | [] => ['%']
      else if ch = '+' then ' ' :: urlencoding_decode rest
      else ch :: urlencoding_decode rest

/-- Split a character list at each occurrence of `sep` (occurrences
dropped); mirrors Rust `str::split(char)`, which yields empty pieces
between adjacent separators. -/
def splitOnChar (sep : Char) (cs : List Char) : List (List Char) :=
  match cs with
  | [] => [[]]
  | c :: rest =>
      let r := splitOnChar sep rest
      if c = sep then [] :: r
      else
        match r with
        | [] => [[c]]
        | piece :: pieces => (c :: piece) :: pieces

/-- Split at the first occurrence of `=`; mirrors
`str::split_once('=')`. -/
def splitOnceEq (cs : List Char) : Option (List Char × List Char) :=
  match findChar? '=' cs with
  | some i => some (cs.take i, cs.drop (i + 1))
  | none => none

/-- The per-segment body of `parse_query_string`'s loop. -/
def insertQueryPart (params : List (String × String)) (part : List Char) :
    List (String × String) :=
  if part.isEmpty then params
  else
    match splitOnceEq part with
    | some (key, value) =>
        insertReplace params (String.mk (urlencoding_decode key))
          (String.mk (urlencoding_decode value))
    | none =>
        insertReplace params (String.mk (urlencoding_decode part)) ""

/-- `parse_query_string` from src/matcher.rs. -/
def parse_query_string (query : String) : List (String × String) :=
  (splitOnChar '&' query.data).foldl insertQueryPart []

/-! ### The matcher (src/matcher.rs, `Matcher`) -/

/-- Context captured during matching: `MatchContext` in
src/matcher.rs. -/
structure MatchContext where
  path_params : List (String × String)
  query_params : List (String × String)
  captures : List (String × String)
deriving DecidableEq, Repr

/-- The empty context (`MatchContext::default`). -/
def MatchContext.default : MatchContext := ⟨[], [], []⟩

/-- Result of matching: `MatchResult` in src/matcher.rs (the stub is
held by value in the model). -/
structure MatchResult where
  stub : StubDefinition
  context : MatchContext
deriving Repr

/-- `CompiledPathMatcher` from src/matcher.rs.  Compiled regexes and
globs are represented by their (validated) pattern strings. -/
inductive CompiledPathMatcher where
  | exact (value : String)
  | prefixOf (value : String)
  | regex (pattern : String)
  | glob (pattern : String)
  | template (segments : List TemplateSegment)
deriving DecidableEq, Repr

/-- The per-stub compilation step of `Matcher::new`. -/
def compilePathMatcher : PathMatcher → CompiledPathMatcher
  | PathMatcher.exact value => CompiledPathMatcher.exact value
  | PathMatcher.prefixOf value => CompiledPathMatcher.prefixOf value
  | PathMatcher.regex pattern => CompiledPathMatcher.regex pattern
  | PathMatcher.glob pattern => CompiledPathMatcher.glob pattern
  | PathMatcher.template t => CompiledPathMatcher.template (PathTemplate.parse t)

/-- The matcher engine: its `path_matchers` vector, as built by
`Matcher::new`. -/
def Matcher.new (stubs : List StubDefinition) : List (Option CompiledPathMatcher) :=
  stubs.map (fun stub => stub.request.path.map compilePathMatcher)

/-- `Matcher::matches_path`; returns the updated context on success,
`none` on failure.  A regex path matcher records positional and named
captures; in the modelled literal-regex fragment there are no capture
groups, so a successful search records nothing. -/
def matches_path (m : CompiledPathMatcher) (path : String) (context : MatchContext) :
    Option MatchContext :=
  match m with
  | CompiledPathMatcher.exact value => if path = value then some context else none
  | CompiledPathMatcher.prefixOf value =>
      if listStartsWith value.data path.data then some context else none
  | CompiledPathMatcher.regex pattern =>
      match Regex.new pattern with
      | some re => if re.is_match path then some context else none
      | none => none
  | CompiledPathMatcher.glob pattern =>
      match Glob.new pattern with
      | some g => if Glob.is_match g path then some context else none
      | none => none
  | CompiledPathMatcher.template segments =>
      match PathTemplate.matches segments path with
      | some params => some { context with path_params := params }
      | none => none

/-- `Matcher::matches_query` from src/matcher.rs.  The regex variant
compiles the pattern at request time; a pattern that fails to compile
is no match, and a compiled pattern is tested with the unanchored
`is_match` search. -/
def matches_query (query_params : List (String × String)) (name : String) :
    QueryMatcher → Bool
  | QueryMatcher.exact value => lookupStr query_params name = some value
  | QueryMatcher.regex pattern =>
      match lookupStr query_params name with
      | some val =>
          match Regex.new pattern with
          | some re => re.is_match val
          | none => false
      | none => false
  | QueryMatcher.present => (lookupStr query_params name).isSome
  | QueryMatcher.absent => (lookupStr query_params name).isNone

/-- The case-insensitive header lookup in `Matcher::matches_header`. -/
def headerLookup (headers : List (String × String)) (name : String) : Option String :=
  (headers.find? (fun kv => kv.1.toLower = name.toLower)).map (·.2)

/-- `Matcher::matches_header` from src/matcher.rs. -/
def matches_header (headers : List (String × String)) (name : String) :
    HeaderMatcher → Bool
  | HeaderMatcher.exact value => headerLookup headers name = some value
  | HeaderMatcher.regex pattern =>
      match headerLookup headers name with
      | some val =>
          match Regex.new pattern with
          | some re => re.is_match val
          | none => false
      | none => false
  | HeaderMatcher.present => (headerLookup headers name).isSome
  | HeaderMatcher.absent => (headerLookup headers name).isNone
  | HeaderMatcher.contains value =>
      match headerLookup headers name with
      | some v => containsSub value.data v.data
      | none => false

/-- `Matcher::matches_json_paths` from src/matcher.rs: every expression
must parse, and its result must be non-null (for a null expectation) or
equal to the expectation. -/
def matches_json_paths (ext : ExtCrates) (json : Json) :
    List (String × Json) → Bool
  | [] => true
  | (pathExpr, expected) :: rest =>
      match ext.jsonPathFind? pathExpr json with
      | none => false
      | some results =>
          let ok :=
            match expected with
            | Json.null => !(match results with | Json.null => true | _ => false)
            | _ => jsonCompact results = jsonCompact expected
          ok && matches_json_paths ext json rest

/-- `Matcher::matches_body` from src/matcher.rs. -/
def matches_body (ext : ExtCrates) (body : Option Bytes) : BodyMatcher → Bool
  | BodyMatcher.exact value => (body.bind Bytes.asString?) = some value
  | BodyMatcher.regex pattern =>
      match body.bind Bytes.asString? with
      | some bs =>
          match Regex.new pattern with
          | some re => re.is_match bs
          | none => false
      | none => false
  | BodyMatcher.jsonPath expressions =>
      match body.bind Bytes.asString? with
      | some bs =>
          match ext.jsonParse? bs with
          | some json => matches_json_paths ext json expressions
          | none => false
      | none => false
  | BodyMatcher.contains value =>
      match body.bind Bytes.asString? with
      | some bs => containsSub value.data bs.data
      | none => false
  | BodyMatcher.json =>
      match body.bind Bytes.asString? with
      | some bs => (ext.jsonParse? bs).isSome
      | none => false
  | BodyMatcher.empty =>
      match body with
      | some b => b.isEmpty
      | none => true

/-- The query-clause conjunction loop in `Matcher::matches_request`. -/
def allQueryClauses (query_params : List (String × String)) :
    List (String × QueryMatcher) → Bool
  | [] => true
  | (name, qm) :: rest =>
      matches_query query_params name qm && allQueryClauses query_params rest

/-- The header-clause conjunction loop in `Matcher::matches_request`. -/
def allHeaderClauses (headers : List (String × String)) :
    List (String × HeaderMatcher) → Bool
  | [] => true
  | (name, hm) :: rest =>
      matches_header headers name hm && allHeaderClauses headers rest

/-- `Matcher::matches_request` from src/matcher.rs: method, then path
(against the compiled matcher at `stub_idx`), then query parsing and
clauses, then header clauses, then the body clause. -/
def matches_request (ext : ExtCrates) (path_matchers : List (Option CompiledPathMatcher))
    (stub_idx : Nat) (matcher : RequestMatcher) (method path : String)
    (query_string : Option String) (headers : List (String × String))
    (body : Option Bytes) : Option MatchContext :=
  let methodOk :=
    if matcher.method.isEmpty then true
    else matcher.method.any (fun m => m.toUpper = method.toUpper)
  if !methodOk then none
  else
    let afterPath :=
      match path_matchers.get? stub_idx with
      | some (some pm) => matches_path pm path MatchContext.default
      | _ => some MatchContext.default
    match afterPath with
    | none => none
    | some ctx =>
        let query_params := parse_query_string (query_string.getD "")
        let ctx := { ctx with query_params := query_params }
        if !allQueryClauses query_params matcher.query then none
        else if !allHeaderClauses headers matcher.headers then none
        else
          match matcher.body with
          | some bm => if matches_body ext body bm then some ctx else none
          | none => some ctx

/-- Indexing of the stub list (`iter().enumerate()`), starting at `n`. -/
def enumFromZ {α : Type} : Nat → List α → List (Nat × α)
  | _, [] => []
  | n, x :: xs => (n, x) :: enumFromZ (n + 1) xs

/-- Stable insertion of an indexed stub into a priority-descending
list: the element goes in front of the first strictly-lower-or-equal
priority it dominates, i.e. before the first element whose priority it
is `≥`. -/
def insertStub (x : Nat × StubDefinition) :
    List (Nat × StubDefinition) → List (Nat × StubDefinition)
  | [] => [x]
  | y :: ys =>
      if y.2.priority ≤ x.2.priority then x :: y :: ys
      else y :: insertStub x ys

/-- Stable insertion sort by priority descending.  Rust's
`sort_by(|a, b| b.1.priority.cmp(&a.1.priority))` is a stable sort by
descending priority; a stable sort's output is uniquely determined by
the comparison and the input order, and this insertion sort computes
that same output. -/
def sortStubs : List (Nat × StubDefinition) → List (Nat × StubDefinition)
  | [] => []
  | x :: xs => insertStub x (sortStubs xs)

/-- The scanning loop of `Matcher::find_match`: skip disabled stubs and
return the first whose clauses all pass. -/
def firstMatch (ext : ExtCrates) (path_matchers : List (Option CompiledPathMatcher))
    (method path : String) (query_string : Option String)
    (headers : List (String × String)) (body : Option Bytes) :
    List (Nat × StubDefinition) → Option MatchResult
  | [] => none
  | (idx, stub) :: rest =>
      if !stub.enabled then
        firstMatch ext path_matchers method path query_string headers body rest
      else
        match matches_request ext path_matchers idx stub.request method path
            query_string headers body with
        | some context => some ⟨stub, context⟩
        | none => firstMatch ext path_matchers method path query_string headers body rest

/-- `Matcher::find_match` from src/matcher.rs. -/
def Matcher.find_match (ext : ExtCrates) (path_matchers : List (Option CompiledPathMatcher))
    (stubs : List StubDefinition) (method path : String)
    (query_string : Option String) (headers : List (String × String))
    (body : Option Bytes) : Option MatchResult :=
  firstMatch ext path_matchers method path query_string headers body
    (sortStubs (enumFromZ 0 stubs))

/-! ### Template engine (src/template.rs) -/

/-- `TemplateContext` from src/template.rs. -/
structure TemplateContext where
  path : List (String × String)
  query : List (String × String)
  headers : List (String × String)
  captures : List (String × String)
  method : String
  request_path : String
  body : Option String
  json : Option Json

/-- The handlebars engine (with the registered helpers, no HTML
escaping) is an external collaborator; a string-template rendering is
modelled as an oracle of this type, mirroring
`Handlebars::render_template(template, &ctx)`. -/
def RenderFn : Type := TemplateContext → String → Except String String

/-- The shared context assembly of `TemplateEngine::render` /
`render_json`. -/
def mkTemplateContext (ext : ExtCrates) (mctx : MatchContext) (method path : String)
    (headers : List (String × String)) (body : Option Bytes) : TemplateContext :=
  let body_str := body.bind Bytes.asString?
  { path := mctx.path_params
    query := mctx.query_params
    headers := headers
    captures := mctx.captures
    method := method
    request_path := path
    body := body_str
    json := body_str.bind ext.jsonParse? }

/-- `s.contains("\x7b\x7b")` — does the string contain a double left
brace? -/
def hasTemplateSyntax (s : String) : Bool :=
  containsSub [lbrace, lbrace] s.data

mutual

/-- `TemplateEngine::render_json_value` from src/template.rs: strings
containing template syntax are rendered (string type preserved), other
scalars pass through, arrays and objects recurse; a rendering error
propagates. -/
def render_json_value (render : RenderFn) (ctx : TemplateContext) :
    Json → Except String Json
  | Json.null => Except.ok Json.null
  | Json.bool b => Except.ok (Json.bool b)
  | Json.num n => Except.ok (Json.num n)
  | Json.str s =>
      if hasTemplateSyntax s then
        (render ctx s).map Json.str
      else
        Except.ok (Json.str s)
  | Json.arr items => (renderJsonList render ctx items).map Json.arr
  | Json.obj fields => (renderJsonFields render ctx fields).map Json.obj

/-- Array recursion of `render_json_value`. -/
def renderJsonList (render : RenderFn) (ctx : TemplateContext) :
    List Json → Except String (List Json)
  | [] => Except.ok []
  | v :: vs => do
      let r ← render_json_value render ctx v
      let rs ← renderJsonList render ctx vs
      Except.ok (r :: rs)

/-- Object recursion of `render_json_value`. -/
def renderJsonFields (render : RenderFn) (ctx : TemplateContext) :
    List (String × Json) → Except String (List (String × Json))
  | [] => Except.ok []
  | (k, v) :: fs => do
      let r ← render_json_value render ctx v
      let rs ← renderJsonFields render ctx fs
      Except.ok ((k, r) :: rs)

end

/-! ### Response building (src/agent.rs and src/config.rs) -/

/-- Oracles for the filesystem and the base64 decoder used by
`ResponseBody::to_bytes`; decoded byte strings are modelled by their
lossy string form (text and JSON bodies are valid UTF-8, so for those
the model is exact). -/
structure FsEnv where
  base64Decode : String → Option String
  readFile : String → Option String

/-- `ResponseBody::to_bytes` from src/config.rs. -/
def ResponseBody.to_bytes (env : FsEnv) : ResponseBody → Except String String
  | ResponseBody.text content => Except.ok content
  | ResponseBody.json content => Except.ok (jsonCompact content)
  | ResponseBody.base64 content =>
      match env.base64Decode content with
      | some s => Except.ok s
      | none => Except.error "Invalid base64"
  | ResponseBody.file path =>
      match env.readFile path with
      | some s => Except.ok s
      | none => Except.error ("Failed to read file " ++ path)

/-- `ResponseBody::content_type` from src/config.rs. -/
def ResponseBody.content_type : ResponseBody → String
  | ResponseBody.text _ => "text/plain"
  | ResponseBody.json _ => "application/json"
  | ResponseBody.base64 _ => "application/octet-stream"
  | ResponseBody.file _ => "application/octet-stream"

/-- The random draws one decision callback may consume: the `f64` unit
draw compared against a corrupt probability, the garbage string of
`generate_garbage`, and the integer draw of `rng.gen_range(a..=b)`. -/
structure Rng where
  f64Draw : Rat
  garbage : String
  rangeDraw : Nat → Nat → Nat

/-- `DelayConfig::calculate` from src/config.rs. -/
def DelayConfig.calculate (rangeDraw : Nat → Nat → Nat) (d : DelayConfig) : Nat :=
  if d.fixed_ms > 0 then d.fixed_ms
  else if d.max_ms > d.min_ms then rangeDraw d.min_ms d.max_ms
  else d.min_ms

/-- The SDK's `Decision` record with its builder methods (an external
collaborator): either *allow*, or *block* with status, headers, body,
tags and metadata. -/
structure Decision where
  allowed : Bool
  status : Nat
  headers : List (String × String)
  body : Option String
  tags : List String
  metadata : List (String × Json)
deriving Repr

/-- `Decision::allow()`. -/
def Decision.allow : Decision := ⟨true, 0, [], none, [], []⟩

/-- `Decision::block(status)`. -/
def Decision.block (status : Nat) : Decision := ⟨false, status, [], none, [], []⟩

/-- `Decision::with_block_header`. -/
def Decision.with_block_header (d : Decision) (name value : String) : Decision :=
  { d with headers := d.headers ++ [(name, value)] }

/-- `Decision::with_tag`. -/
def Decision.with_tag (d : Decision) (tag : String) : Decision :=
  { d with tags := d.tags ++ [tag] }

/-- `Decision::with_metadata`. -/
def Decision.with_metadata (d : Decision) (key : String) (value : Json) : Decision :=
  { d with metadata := d.metadata ++ [(key, value)] }

/-- `Decision::with_body`. -/
def Decision.with_body (d : Decision) (content : String) : Decision :=
  { d with body := some content }

/-- The Content-Type resolution shared by the response builders in
src/agent.rs: the stub's `content-type` header, else its
`Content-Type` header, else the body's implied type, else the global
default. -/
def resolveContentType (cfg : MockServerConfig) (headers : List (String × String))
    (body : Option ResponseBody) : String :=
  match lookupStr headers "content-type" with
  | some v => v
  | none =>
      match lookupStr headers "Content-Type" with
      | some v => v
      | none =>
          match body with
          | some b => b.content_type
          | none => cfg.settings.default_content_type

/-- The response-header copying loop shared by the builders: every
stub header except `Content-Type` (any case) is re-emitted. -/
def addResponseHeaders (d : Decision) (headers : List (String × String)) : Decision :=
  headers.foldl
    (fun d kv => if kv.1.toLower ≠ "content-type" then d.with_block_header kv.1 kv.2 else d)
    d

/-- Attach an optional body (`String::from_utf8_lossy` is the identity
on the modelled strings). -/
def addOptionalBody (d : Decision) (content : Option String) : Decision :=
  match content with
  | some c => d.with_body c
  | none => d

/-- `MockServerAgent::render_template_body` from src/agent.rs. -/
def render_template_body (ext : ExtCrates) (render : RenderFn) (env : FsEnv)
    (mctx : MatchContext) (method path : String) (headers : List (String × String))
    (body : Option Bytes) : ResponseBody → Option String
  | ResponseBody.text content =>
      (render (mkTemplateContext ext mctx method path headers body) content).toOption
  | ResponseBody.json content =>
      (render_json_value render (mkTemplateContext ext mctx method path headers body)
        content).toOption.map jsonCompact
  | other => (other.to_bytes env).toOption

/-- `MockServerAgent::build_normal_response` from src/agent.rs: the
static response of a stub — no fault, no delay, and no template
rendering. -/
def build_normal_response (env : FsEnv) (cfg : MockServerConfig)
    (stub : StubDefinition) : Decision :=
  let response := stub.response
  let body_content := response.body.bind (fun b => (b.to_bytes env).toOption)
  let content_type := resolveContentType cfg response.headers response.body
  let d := (((Decision.block response.status).with_block_header "Content-Type" content_type
    ).with_tag "mocked").with_metadata "stub_id" (Json.str stub.id)
  addOptionalBody (addResponseHeaders d response.headers) body_content

/-- `MockServerAgent::apply_fault` from src/agent.rs.  The result pairs
the decision with the milliseconds slept on that path. -/
def apply_fault (env : FsEnv) (rng : Rng) (cfg : MockServerConfig)
    (stub : StubDefinition) : FaultConfig → Decision × Nat
  | FaultConfig.error status message =>
      (((((((Decision.block status).with_body (message.getD "Error")
        ).with_block_header "Content-Type" "text/plain").with_tag "mocked"
        ).with_tag "fault_injected").with_metadata "stub_id" (Json.str stub.id)
        ).with_metadata "fault_type" (Json.str "error"), 0)
  | FaultConfig.timeout duration_ms =>
      (((((((Decision.block 504).with_body "Gateway Timeout (simulated)"
        ).with_block_header "Content-Type" "text/plain").with_tag "mocked"
        ).with_tag "fault_injected").with_metadata "stub_id" (Json.str stub.id)
        ).with_metadata "fault_type" (Json.str "timeout"), duration_ms)
  | FaultConfig.empty =>
      ((((((Decision.block 200).with_body "").with_tag "mocked"
        ).with_tag "fault_injected").with_metadata "stub_id" (Json.str stub.id)
        ).with_metadata "fault_type" (Json.str "empty"), 0)
  | FaultConfig.corrupt probability =>
      if rng.f64Draw < probability then
        (((((((Decision.block 200).with_body rng.garbage
          ).with_block_header "Content-Type" "application/octet-stream"
          ).with_tag "mocked").with_tag "fault_injected"
          ).with_metadata "stub_id" (Json.str stub.id)
          ).with_metadata "fault_type" (Json.str "corrupt"), 0)
      else
        (build_normal_response env cfg stub, 0)
  | FaultConfig.slowResponse bytes_per_second =>
      let body_size :=
        match stub.response.body.bind (fun b => (b.to_bytes env).toOption) with
        | some s => s.length
        | none => 100
      (build_normal_response env cfg stub, body_size * 1000 / max bytes_per_second 1)

/-- `MockServerAgent::build_response` from src/agent.rs: fault path
first (and only it), else delay, then body (templated or static),
Content-Type resolution, headers, tags and metadata.  The result pairs
the decision with the milliseconds slept. -/
def build_response (ext : ExtCrates) (render : RenderFn) (env : FsEnv) (rng : Rng)
    (cfg : MockServerConfig) (stub : StubDefinition) (mctx : MatchContext)
    (method path : String) (headers : List (String × String)) (body : Option Bytes) :
    Decision × Nat :=
  match stub.fault with
  | some fault => apply_fault env rng cfg stub fault
  | none =>
      let sleptMs :=
        match stub.delay with
        | some d => d.calculate rng.rangeDraw
        | none => 0
      let response := stub.response
      let body_content :=
        match response.body with
        | some body_def =>
            if response.template then
              render_template_body ext render env mctx method path headers body body_def
            else
              (body_def.to_bytes env).toOption
        | none => none
      let content_type := resolveContentType cfg response.headers response.body
      let d := (((Decision.block response.status).with_block_header "Content-Type" content_type
        ).with_tag "mocked").with_metadata "stub_id" (Json.str stub.id)
      (addOptionalBody (addResponseHeaders d response.headers) body_content, sleptMs)

/-- `MockServerAgent::build_default_response` from src/agent.rs. -/
def build_default_response (env : FsEnv) (cfg : MockServerConfig) : Decision :=
  match cfg.default_response with
  | some default =>
      let body_content := default.body.bind (fun b => (b.to_bytes env).toOption)
      let content_type :=
        match lookupStr default.headers "content-type" with
        | some v => v
        | none =>
            match lookupStr default.headers "Content-Type" with
            | some v => v
            | none => cfg.settings.default_content_type
      let d := (((Decision.block default.status).with_block_header "Content-Type" content_type
        ).with_tag "mocked").with_tag "default_response"
      addOptionalBody (addResponseHeaders d default.headers) body_content
  | none =>
      (((Decision.block 404).with_body
        "\x7b\"error\": \"not_found\", \"message\": \"No matching stub found\"\x7d"
        ).with_block_header "Content-Type" "application/json").with_tag "mocked"
        |>.with_tag "not_found"

/-! ### The agent (src/agent.rs) -/

/-- The request tuple the host delivers to `on_request`. -/
structure Request where
  method : String
  path : String
  query_string : Option String
  headers : List (String × List String)
  body : Option Bytes

/-- `flatten_headers` from src/agent.rs: keep the first value of each
header. -/
def flatten_headers (headers : List (String × List String)) : List (String × String) :=
  headers.filterMap (fun kv => kv.2.head?.map (fun first => (kv.1, first)))

/-- The agent's mutable scalars: the three request counters, the drain
flag, and the per-stub match counts (`match_counts` keyed by stub id). -/
structure AgentState where
  requests_total : Nat
  requests_matched : Nat
  requests_unmatched : Nat
  draining : Bool
  match_counts : List (String × Nat)
deriving DecidableEq, Repr

/-- The state `MockServerAgent::new` establishes: zero counters, not
draining, one zero match count per stub id. -/
def AgentState.initial (cfg : MockServerConfig) : AgentState :=
  ⟨0, 0, 0, false, cfg.stubs.map (fun stub => (stub.id, 0))⟩

/-- `MockServerAgent::is_stub_exhausted` from src/agent.rs. -/
def is_stub_exhausted (st : AgentState) (stub : StubDefinition) : Bool :=
  if stub.max_matches = 0 then false
  else
    match (st.match_counts.find? (fun kv => kv.1 = stub.id)).map (·.2) with
    | some count => stub.max_matches ≤ count
    | none => false

/-- `MockServerAgent::increment_match_count` from src/agent.rs: add one
to an existing entry, do nothing when the id is absent. -/
def increment_match_count (counts : List (String × Nat)) (stub_id : String) :
    List (String × Nat) :=
  counts.map (fun kv => if kv.1 = stub_id then (kv.1, kv.2 + 1) else kv)

/-- The matcher invocation `on_request` performs: it reads only the
immutable catalog (never the state scalars) and the request tuple. -/
def agentFindMatch (ext : ExtCrates) (cfg : MockServerConfig) (_st : AgentState)
    (req : Request) : Option MatchResult :=
  Matcher.find_match ext (Matcher.new cfg.stubs) cfg.stubs req.method req.path
    req.query_string (flatten_headers req.headers) req.body

/-- `MockServerAgent::on_request` from src/agent.rs, as a transition on
`AgentState`: bump the total; pass through while draining; otherwise
match, reclassify a cap-exhausted selection as unmatched, and build
the stub / default / passthrough decision. -/
def on_request (ext : ExtCrates) (render : RenderFn) (env : FsEnv) (rng : Rng)
    (cfg : MockServerConfig) (st : AgentState) (req : Request) :
    Decision × AgentState :=
  let st1 := { st with requests_total := st.requests_total + 1 }
  if st1.draining then
    (Decision.allow, st1)
  else
    match agentFindMatch ext cfg st1 req with
    | some result =>
        if is_stub_exhausted st1 result.stub then
          let st2 := { st1 with requests_unmatched := st1.requests_unmatched + 1 }
          (if cfg.settings.passthrough_unmatched then Decision.allow
           else build_default_response env cfg, st2)
        else
          let st2 := { st1 with
            requests_matched := st1.requests_matched + 1,
            match_counts := increment_match_count st1.match_counts result.stub.id }
          ((build_response ext render env rng cfg result.stub result.context req.method
            req.path (flatten_headers req.headers) req.body).1, st2)
    | none =>
        let st2 := { st1 with requests_unmatched := st1.requests_unmatched + 1 }
        (if cfg.settings.passthrough_unmatched then Decision.allow
         else build_default_response env cfg, st2)

/-! ### The uuid helper (src/template.rs, `uuid_helper`) -/

/-- A lowercase hexadecimal digit character for a value below 16. -/
def hexDigit (n : Nat) : Char :=
  if n < 10 then Char.ofNat (48 + n) else Char.ofNat (87 + n)

/-- The `w`-digit zero-padded lowercase hex form of `n`: Rust's
`format!("\x7b:0wx\x7d", n)` for values `n < 16^w` (every formatted
value in `uuid_helper` is masked below its width). -/
def hexPad : Nat → Nat → List Char
  | 0, _ => []
  | w + 1, n => hexPad w (n / 16) ++ [hexDigit (n % 16)]

/-- `uuid_helper` from src/template.rs, as a function of the five raw
draws `rng.gen::<u32>()`, three `rng.gen::<u16>()` and
`rng.gen::<u64>()` (each masked to its machine width by an explicit
`% 2^w`).  `x & 0x0fff` is `x % 4096`, `x & 0xffffffffffff` is
`x % 2^48`, and `(x & 0x3fff) | 0x8000` is `x % 16384 + 32768` because
the mask leaves bit 15 clear, so the OR adds a disjoint bit. -/
def uuid_helper (r1 r2 r3 r4 r5 : Nat) : String :=
  String.mk
    (hexPad 8 (r1 % 2 ^ 32) ++
     ('-' :: (hexPad 4 (r2 % 2 ^ 16) ++
     ('-' :: '4' :: (hexPad 3 (r3 % 2 ^ 16 % 4096) ++
     ('-' :: (hexPad 4 (r4 % 2 ^ 16 % 16384 + 32768) ++
     ('-' :: hexPad 12 (r5 % 2 ^ 64 % 2 ^ 48)))))))))

/-- Is the character one of `0-9a-f`? -/
def isHexDigitChar (c : Char) : Bool :=
  ('0' ≤ c && c ≤ '9') || ('a' ≤ c && c ≤ 'f')

/-- Consume exactly `n` hex digits (the `[0-9a-f]\x7bn\x7d` atom of the
UUID regex). -/
def hexRun : Nat → List Char → Option (List Char)
  | 0, rest => some rest
  | _ + 1, [] => none
  | n + 1, c :: rest => if isHexDigitChar c then hexRun n rest else none

/-- Consume one expected literal character. -/
def expectChar (c : Char) : List Char → Option (List Char)
  | [] => none
  | a :: rest => if a = c then some rest else none

/-- Consume one character drawn from a set (the `[89ab]` atom). -/
def expectOneOf (cs : List Char) : List Char → Option (List Char)
  | [] => none
  | a :: rest => if cs.contains a then some rest else none

/-- The anchored recognizer of
`^[0-9a-f]\x7b8\x7d-[0-9a-f]\x7b4\x7d-4[0-9a-f]\x7b3\x7d-[89ab][0-9a-f]\x7b3\x7d-[0-9a-f]\x7b12\x7d$`
on a character list, transliterated atom by atom; acceptance requires
the whole list to be consumed. -/
def uuidRegexAcceptsL (cs : List Char) : Bool :=
  let step :=
    (((((((((((hexRun 8 cs).bind (expectChar '-')).bind (hexRun 4)).bind
      (expectChar '-')).bind (expectChar '4')).bind (hexRun 3)).bind
      (expectChar '-')).bind (expectOneOf ['8', '9', 'a', 'b'])).bind
      (hexRun 3)).bind (expectChar '-')).bind (hexRun 12))
  match step with
  | some [] => true
  | _ => false

/-- The same recognizer on a string. -/
def uuidRegexAccepts (s : String) : Bool :=
  uuidRegexAcceptsL s.data

/-! ### Template-free JSON documents (the hypothesis of the §8
round-trip law) -/

mutual

/-- No string scalar anywhere in the document contains a double left
brace. -/
def jsonNoTemplate : Json → Bool
  | Json.null => true
  | Json.bool _ => true
  | Json.num _ => true
  | Json.str s => !hasTemplateSyntax s
  | Json.arr items => jsonListNoTemplate items
  | Json.obj fields => jsonFieldsNoTemplate fields

/-- Array case of `jsonNoTemplate`. -/
def jsonListNoTemplate : List Json → Bool
  | [] => true
  | v :: vs => jsonNoTemplate v && jsonListNoTemplate vs

/-- Object case of `jsonNoTemplate`. -/
def jsonFieldsNoTemplate : List (String × Json) → Bool
  | [] => true
  | (_, v) :: fs => jsonNoTemplate v && jsonFieldsNoTemplate fs

end

/-! ### Concrete instances used by counterexamples and witnesses -/

/-- Oracles that parse nothing (no claim below exercises them). -/
def ext0 : ExtCrates := ⟨fun _ => none, fun _ _ => none⟩

/-- A filesystem/base64 environment with nothing readable. -/
def env0 : FsEnv := ⟨fun _ => none, fun _ => none⟩

/-- A rendering oracle that rewrites every template to `"RENDERED"`. -/
def render0 : RenderFn := fun _ _ => Except.ok "RENDERED"

/-- Random draws whose unit draw is 1, so a corrupt fault with
probability 1 does not trigger (`1 < 1` is false). -/
def rngMiss : Rng := ⟨1, "", fun a _ => a⟩

/-- An empty request matcher (every clause absent). -/
def emptyReqMatcher : RequestMatcher := ⟨[], none, [], [], none⟩

/-- A minimal valid response. -/
def okResponse : ResponseDefinition := ⟨200, [], none, false⟩

/-- A minimal stub with the given id. -/
def minimalStub (id : String) : StubDefinition :=
  ⟨id, none, emptyReqMatcher, okResponse, 0, true, 0, none, none⟩

/-- A catalog with two distinct stubs carrying the same id. -/
def dupConfig : MockServerConfig :=
  ⟨[minimalStub "dup", minimalStub "dup"], GlobalSettings.default, none⟩

/-- A configuration with no stubs at all. -/
def cfg0 : MockServerConfig := ⟨[], GlobalSettings.default, none⟩

/-- A draining agent state with all counters zero. -/
def drainState : AgentState := ⟨0, 0, 0, true, []⟩

/-- A simple GET request. -/
def reqHello : Request := ⟨"GET", "/hello", none, [], none⟩

/-- A capped stub: exact path `/c`, at most one match. -/
def capStub : StubDefinition :=
  { minimalStub "cap" with
    request := { emptyReqMatcher with path := some (PathMatcher.exact "/c") },
    max_matches := 1 }

/-- The catalog holding only the capped stub. -/
def capConfig : MockServerConfig := ⟨[capStub], GlobalSettings.default, none⟩

/-- A state in which the capped stub has already been matched once. -/
def capState : AgentState := ⟨5, 2, 3, false, [("cap", 1)]⟩

/-- The request selecting the capped stub. -/
def reqCap : Request := ⟨"GET", "/c", none, [], none⟩

/-- A templated, delayed stub with a corrupt fault: its body is the
template string `\x7b\x7bmethod\x7d\x7d`. -/
def corruptStub : StubDefinition :=
  { minimalStub "corrupt" with
    response := ⟨200, [], some (ResponseBody.text "\x7b\x7bmethod\x7d\x7d"), true⟩,
    delay := some ⟨100, 0, 0⟩,
    fault := some (FaultConfig.corrupt 1) }

/-- The corrupt stub with template and delay stripped (for the amended
C6 witness). -/
def corruptStubStatic : StubDefinition :=
  { corruptStub with
    response := ⟨200, [], some (ResponseBody.text "static"), false⟩,
    delay := none }

/-- A low-priority prefix stub (insertion index 0 in `prioStubs`). -/
def stubLowPrio : StubDefinition :=
  { minimalStub "low" with
    request := { emptyReqMatcher with path := some (PathMatcher.prefixOf "/api/") } }

/-- A high-priority exact stub (insertion index 1 in `prioStubs`). -/
def stubHighPrio : StubDefinition :=
  { minimalStub "high" with
    priority := 10,
    request := { emptyReqMatcher with path := some (PathMatcher.exact "/api/users") } }

/-- A two-stub catalog in which both stubs match `/api/users` and the
later, higher-priority stub must win. -/
def prioStubs : List StubDefinition := [stubLowPrio, stubHighPrio]

/-- A template-free JSON document. -/
def plainDoc : Json :=
  Json.obj [("id", Json.str "123"),
            ("tags", Json.arr [Json.str "a", Json.num 7]),
            ("ok", Json.bool true)]

/-- A non-draining state distinct from `capState` in every scalar. -/
def altState : AgentState := ⟨17, 9, 8, false, [("cap", 999)]⟩

/-- The selection order on indexed stubs: strictly higher priority, or
equal priority and strictly earlier insertion index.  A stable sort by
descending priority yields a list pairwise ordered by this relation
whenever the input indices are strictly increasing. -/
def Rdom (x y : Nat × StubDefinition) : Prop :=
  x.2.priority > y.2.priority ∨ (x.2.priority = y.2.priority ∧ x.1 < y.1)

/-! ### Supporting lemmas for the uuid shape -/

/-- Every digit below 16 renders as a `0-9a-f` character. -/
theorem hexDigit_isHex : ∀ k, k < 16 → isHexDigitChar (hexDigit k) = true := by
  decide

/-- `hexPad` produces exactly `w` characters. -/
theorem hexPad_length (w : Nat) : ∀ n, (hexPad w n).length = w := by
  induction w with
  | zero => intro n; rfl
  | succ w ih =>
      intro n
      simp [hexPad, ih]

/-- Every character `hexPad` produces is a hex digit. -/
theorem hexPad_allHex (w : Nat) : ∀ n c, c ∈ hexPad w n → isHexDigitChar c = true := by
  induction w with
  | zero => intro n c h; cases h
  | succ w ih =>
      intro n c h
      simp only [hexPad, List.mem_append, List.mem_singleton] at h
      rcases h with h | h
      · exact ih _ c h
      · subst h; exact hexDigit_isHex _ (Nat.mod_lt _ (by norm_num))

/-- `hexRun` consumes a block of hex digits of the right length. -/
theorem hexRun_append (g rest : List Char) (hhex : ∀ c ∈ g, isHexDigitChar c = true) :
    hexRun g.length (g ++ rest) = some rest := by
  induction g with
  | nil => rfl
  | cons c g ih =>
      simp only [List.length_cons, List.cons_append, hexRun,
        hhex c (List.mem_cons_self c g), if_true]
      exact ih (fun x hx => hhex x (List.mem_cons_of_mem c hx))

/-- Splitting the leading digit off a `hexPad` block. -/
theorem hexPad_succ_front (w : Nat) : ∀ n,
    hexPad (w + 1) n = hexDigit (n / 16 ^ w % 16) :: hexPad w n := by
  induction w with
  | zero => intro n; simp [hexPad]
  | succ w ih =>
      intro n
      have h1 : hexPad (w + 1 + 1) n = hexPad (w + 1) (n / 16) ++ [hexDigit (n % 16)] := rfl
      rw [h1, ih (n / 16), Nat.div_div_eq_div_mul]
      have h2 : 16 * 16 ^ w = 16 ^ (w + 1) := by ring
      rw [h2]
      rfl

/-- `hexRun` consumes exactly a `hexPad` block. -/
theorem hexRun_hexPad (w n : Nat) (rest : List Char) :
    hexRun w (hexPad w n ++ rest) = some rest := by
  have h := hexRun_append (hexPad w n) rest (fun c hc => hexPad_allHex w n c hc)
  rwa [hexPad_length] at h

/-- Consuming an expected character that is present. -/
theorem expectChar_cons (c : Char) (rest : List Char) :
    expectChar c (c :: rest) = some rest := by
  simp [expectChar]

/-- The variant digit of a value in `[0x8000, 0xbfff]` is one of
`8 9 a b`. -/
theorem expectOneOf_variant (x : Nat) (hx : x = 8 ∨ x = 9 ∨ x = 10 ∨ x = 11)
    (rest : List Char) :
    expectOneOf ['8', '9', 'a', 'b'] (hexDigit x :: rest) = some rest := by
  rcases hx with h | h | h | h <;> subst h <;> rfl

/-- Acceptance of the assembled five-group hex string, for any variant
value `v` with high digit `8..11`. -/
theorem uuidAcceptsL_assembled (a b c e v : Nat)
    (hv : v / 4096 = 8 ∨ v / 4096 = 9 ∨ v / 4096 = 10 ∨ v / 4096 = 11) :
    uuidRegexAcceptsL
      (hexPad 8 a ++
       ('-' :: (hexPad 4 b ++
       ('-' :: '4' :: (hexPad 3 c ++
       ('-' :: (hexPad 4 v ++
       ('-' :: hexPad 12 e)))))))) = true := by
  have hfront : hexPad 4 v = hexDigit (v / 16 ^ 3 % 16) :: hexPad 3 v :=
    hexPad_succ_front 3 v
  have hmod : v / 16 ^ 3 % 16 = v / 4096 := by
    have h16 : (16 : Nat) ^ 3 = 4096 := by norm_num
    rw [h16]
    omega
  unfold uuidRegexAcceptsL
  rw [hexRun_hexPad 8 a, Option.some_bind, expectChar_cons, Option.some_bind,
    hexRun_hexPad 4 b, Option.some_bind, expectChar_cons, Option.some_bind,
    expectChar_cons, Option.some_bind, hexRun_hexPad 3 c, Option.some_bind,
    expectChar_cons, Option.some_bind, hfront, hmod, List.cons_append,
    expectOneOf_variant (v / 4096) hv, Option.some_bind, hexRun_hexPad 3 v,
    Option.some_bind, expectChar_cons, Option.some_bind]
  have hnil : hexPad 12 e ++ ([] : List Char) = hexPad 12 e := List.append_nil _
  rw [← hnil, hexRun_hexPad 12 e]

/-! ### Claim theorems -/

/-- C2: the code's parameter lookahead scans the whole segment list
from its head, so for the template `/a/\x7bp\x7d/b` the "next literal"
found is `/a/`, the parameter swallows `x/b`, and the trailing literal
fails: `/a/x/b` does not match at all — contradicting the spec's rule
that the parameter consumes up to the next literal segment (which would
capture `p = "x"`). -/
theorem pathTemplate_param_before_literal_fails_on_a_x_b :
    PathTemplate.matches (PathTemplate.parse "/a/\x7bp\x7d/b") "/a/x/b" = none ∧
    firstLit (PathTemplate.parse "/a/\x7bp\x7d/b") = some "/a/" := by
  constructor
  · decide
  · decide

/-- C3: `MockServerConfig::validate` accepts a catalog holding two
stubs with the same id (it checks only per-stub properties and never
id uniqueness), while it does reject an empty id. -/
theorem validate_accepts_duplicate_ids :
    MockServerConfig.validate dupConfig = Except.ok () ∧
    dupConfig.stubs.map (fun s => s.id) = ["dup", "dup"] ∧
    StubDefinition.validate (minimalStub "") =
      Except.error "Stub id cannot be empty" := by
  refine ⟨rfl, rfl, rfl⟩

/-- C9: every string `uuid_helper` can emit — for all five raw draws —
is accepted by the anchored UUIDv4 regex
`^[0-9a-f]\x7b8\x7d-[0-9a-f]\x7b4\x7d-4[0-9a-f]\x7b3\x7d-[89ab][0-9a-f]\x7b3\x7d-[0-9a-f]\x7b12\x7d$`. -/
theorem uuid_helper_matches_uuid_shape (r1 r2 r3 r4 r5 : Nat) :
    uuidRegexAccepts (uuid_helper r1 r2 r3 r4 r5) = true := by
  show uuidRegexAcceptsL
      (hexPad 8 (r1 % 2 ^ 32) ++
       ('-' :: (hexPad 4 (r2 % 2 ^ 16) ++
       ('-' :: '4' :: (hexPad 3 (r3 % 2 ^ 16 % 4096) ++
       ('-' :: (hexPad 4 (r4 % 2 ^ 16 % 16384 + 32768) ++
       ('-' :: hexPad 12 (r5 % 2 ^ 64 % 2 ^ 48))))))))) = true
  generalize hgen : r4 % 2 ^ 16 % 16384 = k
  have hklt : k < 16384 := by
    rw [← hgen]
    exact Nat.mod_lt _ (by norm_num)
  have hv : (k + 32768) / 4096 = 8 ∨ (k + 32768) / 4096 = 9 ∨
      (k + 32768) / 4096 = 10 ∨ (k + 32768) / 4096 = 11 := by omega
  exact uuidAcceptsL_assembled (r1 % 2 ^ 32) (r2 % 2 ^ 16) (r3 % 2 ^ 16 % 4096)
    (r5 % 2 ^ 64 % 2 ^ 48) (k + 32768) hv

/-- C10: the stub selection `on_request` performs is a pure function of
the catalog and the request tuple (method, path, query string, headers,
body): it is identical across any two agent states — whatever their
counters, per-stub match counts or drain flag — and across any two
requests with equal components. -/
theorem agentFindMatch_state_independent (ext : ExtCrates) (cfg : MockServerConfig)
    (st st' : AgentState) (req req' : Request)
    (hm : req.method = req'.method) (hp : req.path = req'.path)
    (hq : req.query_string = req'.query_string) (hh : req.headers = req'.headers)
    (hb : req.body = req'.body) :
    agentFindMatch ext cfg st req = agentFindMatch ext cfg st' req' := by
  cases req
  cases req'
  simp only at hm hp hq hh hb
  subst hm hp hq hh hb
  rfl

/-- C10 witness: two states differing in every scalar and two
componentwise-equal requests select identically. -/
theorem agentFindMatch_state_independent_witness :
    agentFindMatch ext0 capConfig capState reqCap =
      agentFindMatch ext0 capConfig altState ⟨"GET", "/c", none, [], none⟩ :=
  agentFindMatch_state_independent ext0 capConfig capState altState reqCap
    ⟨"GET", "/c", none, [], none⟩ rfl rfl rfl rfl rfl

/-- C1 counterexample: one `on_request` invocation completed while the
draining flag is set increments `requests_total` but neither
`requests_matched` nor `requests_unmatched`, so afterwards
`total = 1 ≠ 0 = matched + unmatched` — the claimed identity (asserted
to include draining invocations) fails. -/
theorem on_request_draining_breaks_counter_sum :
    (on_request ext0 render0 env0 rngMiss cfg0 drainState reqHello).2.requests_total ≠
      (on_request ext0 render0 env0 rngMiss cfg0 drainState reqHello).2.requests_matched +
      (on_request ext0 render0 env0 rngMiss cfg0 drainState reqHello).2.requests_unmatched := by
  intro h
  simp [on_request, drainState, cfg0, reqHello] at h

/-- C1 amended: every completed `on_request` invocation increments
`requests_total` by exactly 1; when the invocation starts with the
drain flag clear, exactly one of `requests_matched` and
`requests_unmatched` additionally increments by 1; when it starts with
the drain flag set, neither of them changes (so `total = matched +
unmatched` is preserved only by non-draining invocations). -/
theorem on_request_counter_deltas (ext : ExtCrates) (render : RenderFn) (env : FsEnv)
    (rng : Rng) (cfg : MockServerConfig) (st : AgentState) (req : Request) :
    ((on_request ext render env rng cfg st req).2.requests_total = st.requests_total + 1)
    ∧ (st.draining = true →
        (on_request ext render env rng cfg st req).2.requests_matched = st.requests_matched ∧
        (on_request ext render env rng cfg st req).2.requests_unmatched = st.requests_unmatched)
    ∧ (st.draining = false →
        ((on_request ext render env rng cfg st req).2.requests_matched = st.requests_matched + 1 ∧
         (on_request ext render env rng cfg st req).2.requests_unmatched = st.requests_unmatched)
        ∨
        ((on_request ext render env rng cfg st req).2.requests_matched = st.requests_matched ∧
         (on_request ext render env rng cfg st req).2.requests_unmatched = st.requests_unmatched + 1)) := by
  unfold on_request
  cases hd : st.draining with
  | true => simp [hd]
  | false =>
      simp only [hd, Bool.false_eq_true, if_false]
      split
      · split
        · simp
        · simp
      · simp

/-- C1 witness: the deltas at a concrete non-draining state and
request. -/
theorem on_request_counter_deltas_witness :
    ((on_request ext0 render0 env0 rngMiss capConfig capState reqCap).2.requests_total =
      capState.requests_total + 1)
    ∧ (capState.draining = true →
        (on_request ext0 render0 env0 rngMiss capConfig capState reqCap).2.requests_matched =
          capState.requests_matched ∧
        (on_request ext0 render0 env0 rngMiss capConfig capState reqCap).2.requests_unmatched =
          capState.requests_unmatched)
    ∧ (capState.draining = false →
        ((on_request ext0 render0 env0 rngMiss capConfig capState reqCap).2.requests_matched =
          capState.requests_matched + 1 ∧
         (on_request ext0 render0 env0 rngMiss capConfig capState reqCap).2.requests_unmatched =
          capState.requests_unmatched)
        ∨
        ((on_request ext0 render0 env0 rngMiss capConfig capState reqCap).2.requests_matched =
          capState.requests_matched ∧
         (on_request ext0 render0 env0 rngMiss capConfig capState reqCap).2.requests_unmatched =
          capState.requests_unmatched + 1)) :=
  on_request_counter_deltas ext0 render0 env0 rngMiss capConfig capState reqCap

/-- C4: when selection returns a stub whose cap is reached
(`is_stub_exhausted`), `on_request` does not synthesize the stub's
response: it increments `requests_unmatched` (leaving
`requests_matched` and the per-stub counts unchanged) and answers with
passthrough when `passthrough_unmatched` is set, or the
default/404 response otherwise; and the selection step itself reads no
match counts — its result is unchanged under any replacement of them. -/
theorem on_request_cap_exhausted (ext : ExtCrates) (render : RenderFn) (env : FsEnv)
    (rng : Rng) (cfg : MockServerConfig) (st : AgentState) (req : Request)
    (result : MatchResult)
    (h1 : st.draining = false)
    (h2 : agentFindMatch ext cfg st req = some result)
    (h3 : is_stub_exhausted st result.stub = true) :
    on_request ext render env rng cfg st req =
      ((if cfg.settings.passthrough_unmatched then Decision.allow
        else build_default_response env cfg),
       { st with requests_total := st.requests_total + 1,
                 requests_unmatched := st.requests_unmatched + 1 })
    ∧ (∀ mc, agentFindMatch ext cfg { st with match_counts := mc } req =
        agentFindMatch ext cfg st req) := by
  constructor
  · have h2' : agentFindMatch ext cfg
        { requests_total := st.requests_total + 1, requests_matched := st.requests_matched,
          requests_unmatched := st.requests_unmatched, draining := false,
          match_counts := st.match_counts } req = some result := h2
    have h3' : is_stub_exhausted
        { requests_total := st.requests_total + 1, requests_matched := st.requests_matched,
          requests_unmatched := st.requests_unmatched, draining := false,
          match_counts := st.match_counts } result.stub = true := h3
    unfold on_request
    rw [h1]
    simp only [Bool.false_eq_true, if_false, h2', h3', if_true]
  · intro mc
    rfl

/-- C4 witness: the already-capped stub `capStub` is selected for
`/c` but reclassified as unmatched. -/
theorem on_request_cap_exhausted_witness :
    (on_request ext0 render0 env0 rngMiss capConfig capState reqCap =
      ((if capConfig.settings.passthrough_unmatched then Decision.allow
        else build_default_response env0 capConfig),
       { capState with requests_total := capState.requests_total + 1,
                       requests_unmatched := capState.requests_unmatched + 1 })
    ∧ (∀ mc, agentFindMatch ext0 capConfig { capState with match_counts := mc } reqCap =
        agentFindMatch ext0 capConfig capState reqCap)) :=
  on_request_cap_exhausted ext0 render0 env0 rngMiss capConfig capState reqCap
    ⟨capStub, ⟨[], [], []⟩⟩ rfl rfl rfl

/-- `listStartsWith` means a prefix decomposition exists. -/
theorem listStartsWith_iff (pre : List Char) : ∀ l : List Char,
    listStartsWith pre l = true ↔ ∃ suf, l = pre ++ suf := by
  induction pre with
  | nil =>
      intro l
      simp [listStartsWith]
  | cons c cs ih =>
      intro l
      cases l with
      | nil => simp [listStartsWith]
      | cons a as =>
          constructor
          · intro h
            simp only [listStartsWith, Bool.and_eq_true, decide_eq_true_eq] at h
            obtain ⟨hca, h2⟩ := h
            obtain ⟨suf, hs⟩ := (ih as).mp h2
            subst hca
            exact ⟨suf, by rw [hs]; rfl⟩
          · rintro ⟨suf, hs⟩
            injection hs with h1 h2
            simp only [listStartsWith, Bool.and_eq_true, decide_eq_true_eq]
            exact ⟨h1.symm, (ih as).mpr ⟨suf, h2⟩⟩

/-- `isSome` is invariant under `Option.map`. -/
theorem isSome_omap (o : Option Nat) (f : Nat → Nat) : (o.map f).isSome = o.isSome := by
  cases o <;> rfl

/-- `containsSub` (Rust `is_match` of a literal pattern) holds exactly
when the needle occurs contiguously somewhere in the haystack. -/
theorem containsSub_iff (needle : List Char) : ∀ hay : List Char,
    containsSub needle hay = true ↔ ∃ pre suf, hay = pre ++ needle ++ suf := by
  intro hay
  induction hay with
  | nil =>
      constructor
      · intro h
        unfold containsSub findSub? at h
        cases needle with
        | nil => exact ⟨[], [], rfl⟩
        | cons c cs => simp [List.isEmpty] at h
      · rintro ⟨pre, suf, hs⟩
        have h1 := List.append_eq_nil.mp hs.symm
        have h2 := List.append_eq_nil.mp h1.1
        obtain ⟨-, hn⟩ := h2
        subst hn
        rfl
  | cons c rest ih =>
      constructor
      · intro h
        unfold containsSub findSub? at h
        by_cases hsw : listStartsWith needle (c :: rest) = true
        · obtain ⟨suf, hs⟩ := (listStartsWith_iff needle (c :: rest)).mp hsw
          exact ⟨[], suf, by simpa using hs⟩
        · rw [if_neg hsw] at h
          rw [isSome_omap] at h
          obtain ⟨pre, suf, hs⟩ := ih.mp h
          exact ⟨c :: pre, suf, by rw [List.cons_append, List.cons_append, hs]⟩
      · rintro ⟨pre, suf, hs⟩
        unfold containsSub findSub?
        by_cases hsw : listStartsWith needle (c :: rest) = true
        · rw [if_pos hsw]
          rfl
        · rw [if_neg hsw]
          rw [isSome_omap]
          cases pre with
          | nil =>
              exfalso
              apply hsw
              exact (listStartsWith_iff needle (c :: rest)).mpr ⟨suf, by simpa using hs⟩
          | cons p ps =>
              have hs' : c :: rest = p :: (ps ++ needle ++ suf) := by
                simpa using hs
              injection hs' with h1 h2
              exact ih.mpr ⟨ps, suf, h2⟩

/-- C7 counterexample: for the stored value `"xax"` and the (valid)
pattern `"a"`, the query Regex clause passes — the code's `is_match`
is an unanchored substring search — although the value does not match
the regex as a whole value, contradicting the claimed full-valued
semantics. -/
theorem matches_query_regex_not_full_valued :
    matches_query [("n", "xax")] "n" (QueryMatcher.regex "a") = true ∧
    Regex.new "a" = some ⟨"a"⟩ ∧
    CompiledRegex.isFullMatch ⟨"a"⟩ "xax" = false := by
  refine ⟨?_, ?_, ?_⟩ <;> decide

/-- C7 amended: for a query Regex clause on parameter `n`, when the
pattern compiles the clause passes iff the request stores a value for
`n` and the regex matches *somewhere in* that value (substring
semantics, not full-valued); when the pattern does not compile, the
clause simply fails (no error is raised — the clause returns
`false`). -/
theorem matches_query_regex_substring (qp : List (String × String))
    (name pattern : String) :
    (Regex.new pattern = none →
      matches_query qp name (QueryMatcher.regex pattern) = false)
    ∧ (∀ re, Regex.new pattern = some re →
        (matches_query qp name (QueryMatcher.regex pattern) = true ↔
          ∃ val, lookupStr qp name = some val ∧
            ∃ pre suf, val.data = pre ++ re.lit.data ++ suf)) := by
  constructor
  · intro hn
    simp only [matches_query]
    cases hl : lookupStr qp name with
    | none => rfl
    | some val =>
        simp only [hn]
  · intro re hre
    simp only [matches_query]
    cases hl : lookupStr qp name with
    | none => simp
    | some val =>
        simp only [hre]
        show CompiledRegex.is_match re val = true ↔ _
        unfold CompiledRegex.is_match
        rw [containsSub_iff]
        constructor
        · rintro ⟨pre, suf, h⟩
          exact ⟨val, rfl, pre, suf, h⟩
        · rintro ⟨val', hv, pre, suf, h⟩
          injection hv with hv'
          subst hv'
          exact ⟨pre, suf, h⟩

/-- C7 witness: the characterization at the concrete clause of the
counterexample. -/
theorem matches_query_regex_substring_witness :
    ((Regex.new "a" = none →
      matches_query [("n", "xax")] "n" (QueryMatcher.regex "a") = false)
    ∧ (∀ re, Regex.new "a" = some re →
        (matches_query [("n", "xax")] "n" (QueryMatcher.regex "a") = true ↔
          ∃ val, lookupStr [("n", "xax")] "n" = some val ∧
            ∃ pre suf, val.data = pre ++ re.lit.data ++ suf))) :=
  matches_query_regex_substring [("n", "xax")] "n" "a"

mutual

/-- Rendering is the identity on a template-free JSON value. -/
theorem render_json_value_id (render : RenderFn) (ctx : TemplateContext) :
    ∀ v : Json, jsonNoTemplate v = true → render_json_value render ctx v = Except.ok v
  | Json.null, _ => rfl
  | Json.bool _, _ => rfl
  | Json.num _, _ => rfl
  | Json.str s, h => by
      have hs : hasTemplateSyntax s = false := by
        simpa [jsonNoTemplate] using h
      simp [render_json_value, hs]
  | Json.arr items, h => by
      have h' : jsonListNoTemplate items = true := by
        simpa [jsonNoTemplate] using h
      simp only [render_json_value, renderJsonList_id render ctx items h']
      rfl
  | Json.obj fields, h => by
      have h' : jsonFieldsNoTemplate fields = true := by
        simpa [jsonNoTemplate] using h
      simp only [render_json_value, renderJsonFields_id render ctx fields h']
      rfl

/-- Rendering is the identity on a template-free JSON array. -/
theorem renderJsonList_id (render : RenderFn) (ctx : TemplateContext) :
    ∀ l : List Json, jsonListNoTemplate l = true →
      renderJsonList render ctx l = Except.ok l
  | [], _ => rfl
  | v :: vs, h => by
      have h12 : jsonNoTemplate v = true ∧ jsonListNoTemplate vs = true := by
        simpa [jsonListNoTemplate, Bool.and_eq_true] using h
      simp only [renderJsonList, render_json_value_id render ctx v h12.1,
        renderJsonList_id render ctx vs h12.2]
      rfl

/-- Rendering is the identity on template-free JSON object fields. -/
theorem renderJsonFields_id (render : RenderFn) (ctx : TemplateContext) :
    ∀ fs : List (String × Json), jsonFieldsNoTemplate fs = true →
      renderJsonFields render ctx fs = Except.ok fs
  | [], _ => rfl
  | (k, v) :: fs, h => by
      have h12 : jsonNoTemplate v = true ∧ jsonFieldsNoTemplate fs = true := by
        simpa [jsonFieldsNoTemplate, Bool.and_eq_true] using h
      simp only [renderJsonFields, render_json_value_id render ctx v h12.1,
        renderJsonFields_id render ctx fs h12.2]
      rfl

end

/-- C8: for a JSON document none of whose string scalars contains a
double left brace, templated rendering is the identity —
`render_json_value` returns the document unchanged (for every context
and every rendering oracle) — and the templated body path of the
response builder produces exactly the static materialization
`to_bytes` of the same document. -/
theorem render_json_template_free_identity (render : RenderFn) (ctx : TemplateContext)
    (ext : ExtCrates) (env : FsEnv) (mctx : MatchContext) (method path : String)
    (headers : List (String × String)) (body : Option Bytes) (v : Json)
    (h : jsonNoTemplate v = true) :
    render_json_value render ctx v = Except.ok v ∧
    render_template_body ext render env mctx method path headers body
      (ResponseBody.json v) = ((ResponseBody.json v).to_bytes env).toOption := by
  refine ⟨render_json_value_id render ctx v h, ?_⟩
  simp [render_template_body, ResponseBody.to_bytes, Except.toOption,
    render_json_value_id render (mkTemplateContext ext mctx method path headers body) v h]

/-- C8 witness: the identity at the concrete template-free document
`plainDoc`. -/
theorem render_json_template_free_identity_witness :
    (render_json_value render0
        (mkTemplateContext ext0 MatchContext.default "GET" "/" [] none) plainDoc =
      Except.ok plainDoc ∧
     render_template_body ext0 render0 env0 MatchContext.default "GET" "/" [] none
        (ResponseBody.json plainDoc) =
      ((ResponseBody.json plainDoc).to_bytes env0).toOption) :=
  render_json_template_free_identity render0
    (mkTemplateContext ext0 MatchContext.default "GET" "/" [] none) ext0 env0
    MatchContext.default "GET" "/" [] none plainDoc (by rfl)

/-- C6 counterexample: `corruptStub` has a Corrupt fault, a fixed
100 ms delay and a templated text body.  When the draw does not
trigger corruption the code answers via `build_normal_response`: it
sleeps 0 ms instead of the configured 100 ms, and its body is the raw
template text rather than the rendered output the fault-free §4.3 path
produces — so the reply does not equal the stub's normal response. -/
theorem corrupt_non_trigger_skips_template_and_delay :
    ((build_response ext0 render0 env0 rngMiss cfg0 corruptStub MatchContext.default
        "GET" "/x" [] none).2 ≠
     (build_response ext0 render0 env0 rngMiss cfg0
        { corruptStub with fault := none } MatchContext.default "GET" "/x" [] none).2)
    ∧ ((build_response ext0 render0 env0 rngMiss cfg0 corruptStub MatchContext.default
        "GET" "/x" [] none).1.body ≠
       (build_response ext0 render0 env0 rngMiss cfg0
        { corruptStub with fault := none } MatchContext.default "GET" "/x" [] none).1.body) := by
  refine ⟨?_, ?_⟩ <;> decide

/-- C6 amended: when the probability draw does not trigger corruption,
the reply is `build_normal_response` with no sleep: it shares the
fault-free path's status, headers and Content-Type resolution, but the
body is always the *static* materialization — template rendering is
not applied and a configured delay is not slept; it equals the full
§4.3 fault-free response exactly when the stub has `template = false`
and no delay. -/
theorem corrupt_non_trigger_is_static_normal (ext : ExtCrates) (render : RenderFn)
    (env : FsEnv) (rng : Rng) (cfg : MockServerConfig) (stub : StubDefinition) (p : Rat)
    (mctx : MatchContext) (method path : String) (headers : List (String × String))
    (body : Option Bytes)
    (h1 : stub.fault = some (FaultConfig.corrupt p))
    (h2 : ¬ rng.f64Draw < p) :
    build_response ext render env rng cfg stub mctx method path headers body =
      (build_normal_response env cfg stub, 0)
    ∧ (stub.response.template = false → stub.delay = none →
        build_response ext render env rng cfg { stub with fault := none } mctx method path
          headers body = (build_normal_response env cfg stub, 0)) := by
  constructor
  · simp only [build_response, h1, apply_fault, if_neg h2]
  · intro ht hd
    simp only [build_response, build_normal_response, hd]
    simp only [ht, Bool.false_eq_true, if_false]
    cases hb : stub.response.body with
    | none => simp
    | some bd => simp

/-- C6 witness: the amended statement at the static corrupt stub. -/
theorem corrupt_non_trigger_is_static_normal_witness :
    (build_response ext0 render0 env0 rngMiss cfg0 corruptStubStatic MatchContext.default
        "GET" "/x" [] none =
      (build_normal_response env0 cfg0 corruptStubStatic, 0)
    ∧ (corruptStubStatic.response.template = false → corruptStubStatic.delay = none →
        build_response ext0 render0 env0 rngMiss cfg0
          { corruptStubStatic with fault := none } MatchContext.default "GET" "/x" [] none =
          (build_normal_response env0 cfg0 corruptStubStatic, 0))) :=
  corrupt_non_trigger_is_static_normal ext0 render0 env0 rngMiss cfg0 corruptStubStatic 1
    MatchContext.default "GET" "/x" [] none rfl (by decide)

/-! ### Sorting and selection lemmas for priority dominance -/

/-- Membership through `insertStub`. -/
theorem mem_insertStub (x z : Nat × StubDefinition) : ∀ l,
    z ∈ insertStub x l ↔ z = x ∨ z ∈ l := by
  intro l
  induction l with
  | nil => simp [insertStub]
  | cons y ys ih =>
      unfold insertStub
      by_cases hc : y.2.priority ≤ x.2.priority
      · simp [hc]
      · simp only [hc, if_false, List.mem_cons, ih]
        tauto

/-- Membership through `sortStubs`. -/
theorem mem_sortStubs (z : Nat × StubDefinition) : ∀ l,
    z ∈ sortStubs l ↔ z ∈ l := by
  intro l
  induction l with
  | nil => simp [sortStubs]
  | cons x xs ih => simp [sortStubs, mem_insertStub, ih]

/-- Inserting an element whose index is below every index present
preserves the `Rdom` ordering. -/
theorem insertStub_pairwise (x : Nat × StubDefinition) : ∀ l,
    l.Pairwise Rdom → (∀ y ∈ l, x.1 < y.1) →
    (insertStub x l).Pairwise Rdom := by
  intro l
  induction l with
  | nil =>
      intro _ _
      simp [insertStub]
  | cons y ys ih =>
      intro hp hidx
      rw [List.pairwise_cons] at hp
      obtain ⟨hy, hys⟩ := hp
      unfold insertStub
      by_cases hc : y.2.priority ≤ x.2.priority
      · rw [if_pos hc, List.pairwise_cons]
        constructor
        · intro z hz
          rcases List.mem_cons.mp hz with hz | hz
          · subst hz
            have hxy := hidx z (List.mem_cons_self _ _)
            unfold Rdom
            omega
          · have hyz := hy z hz
            have hxz := hidx z (List.mem_cons_of_mem _ hz)
            unfold Rdom at hyz ⊢
            omega
        · rw [List.pairwise_cons]
          exact ⟨hy, hys⟩
      · rw [if_neg hc, List.pairwise_cons]
        constructor
        · intro z hz
          rcases (mem_insertStub x z ys).mp hz with hz | hz
          · subst hz
            unfold Rdom
            omega
          · exact hy z hz
        · exact ih hys (fun w hw => hidx w (List.mem_cons_of_mem _ hw))

/-- The stable insertion sort orders any strictly-index-increasing
list pairwise by `Rdom`. -/
theorem sortStubs_pairwise : ∀ l : List (Nat × StubDefinition),
    l.Pairwise (fun a b => a.1 < b.1) → (sortStubs l).Pairwise Rdom := by
  intro l
  induction l with
  | nil => intro _; simp [sortStubs]
  | cons x xs ih =>
      intro hp
      rw [List.pairwise_cons] at hp
      exact insertStub_pairwise x (sortStubs xs) (ih hp.2)
        (fun y hy => hp.1 y ((mem_sortStubs y xs).mp hy))

/-- Indices produced by `enumFromZ n` are at least `n`. -/
theorem enumFromZ_le {α : Type} : ∀ (l : List α) (n : Nat) (y : Nat × α),
    y ∈ enumFromZ n l → n ≤ y.1 := by
  intro l
  induction l with
  | nil => intro n y h; cases h
  | cons x xs ih =>
      intro n y h
      rcases List.mem_cons.mp h with h | h
      · subst h; exact Nat.le_refl n
      · exact Nat.le_of_succ_le (ih (n + 1) y h)

/-- `enumFromZ` produces strictly increasing indices. -/
theorem enumFromZ_pairwise {α : Type} : ∀ (l : List α) (n : Nat),
    (enumFromZ n l).Pairwise (fun a b => a.1 < b.1) := by
  intro l
  induction l with
  | nil => intro n; exact List.Pairwise.nil
  | cons x xs ih =>
      intro n
      unfold enumFromZ
      rw [List.pairwise_cons]
      constructor
      · intro y hy
        have := enumFromZ_le xs (n + 1) y hy
        omega
      · exact ih (n + 1)

/-- `get?` positions appear in the enumeration. -/
theorem enumFromZ_get {α : Type} : ∀ (l : List α) (n k : Nat) (a : α),
    l.get? k = some a → (n + k, a) ∈ enumFromZ n l := by
  intro l
  induction l with
  | nil => intro n k a h; cases h
  | cons x xs ih =>
      intro n k a h
      cases k with
      | zero =>
          injection h with h
          subst h
          exact List.mem_cons_self _ _
      | succ k =>
          have hmem := ih (n + 1) k a h
          have : n + (k + 1) = n + 1 + k := by omega
          rw [this]
          exact List.mem_cons_of_mem _ hmem

/-- Every element of the enumeration is a `get?` position. -/
theorem enumFromZ_mem_get {α : Type} : ∀ (l : List α) (n : Nat) (p : Nat × α),
    p ∈ enumFromZ n l → ∃ k, p.1 = n + k ∧ l.get? k = some p.2 := by
  intro l
  induction l with
  | nil => intro n p h; cases h
  | cons x xs ih =>
      intro n p h
      rcases List.mem_cons.mp h with h | h
      · subst h
        exact ⟨0, by omega, rfl⟩
      · obtain ⟨k, hk1, hk2⟩ := ih (n + 1) p h
        exact ⟨k + 1, by omega, hk2⟩

/-- A stub returned by the `firstMatch` scan is enabled. -/
theorem firstMatch_enabled (ext : ExtCrates) (pm : List (Option CompiledPathMatcher))
    (method path : String) (qs : Option String) (headers : List (String × String))
    (body : Option Bytes) : ∀ (l : List (Nat × StubDefinition)) (r : MatchResult),
    firstMatch ext pm method path qs headers body l = some r →
    r.stub.enabled = true := by
  intro l
  induction l with
  | nil =>
      intro r h
      simp [firstMatch] at h
  | cons z rest ih =>
      intro r h
      unfold firstMatch at h
      cases hz : z.2.enabled with
      | false =>
          rw [hz] at h
          simp only [Bool.not_false, if_pos] at h
          exact ih r h
      | true =>
          rw [hz] at h
          simp only [Bool.not_true, Bool.false_eq_true, if_false] at h
          cases hm : matches_request ext pm z.1 z.2.request method path qs headers body with
          | some c =>
              rw [hm] at h
              injection h with h
              subst h
              exact hz
          | none =>
              rw [hm] at h
              exact ih r h

/-- On an `Rdom`-pairwise list, the scan returns the dominant
satisfying element. -/
theorem firstMatch_dominant (ext : ExtCrates) (pm : List (Option CompiledPathMatcher))
    (method path : String) (qs : Option String) (headers : List (String × String))
    (body : Option Bytes) (i : Nat) (A : StubDefinition) (ctx : MatchContext) :
    ∀ l : List (Nat × StubDefinition),
    l.Pairwise Rdom → (i, A) ∈ l → A.enabled = true →
    matches_request ext pm i A.request method path qs headers body = some ctx →
    (∀ z ∈ l, z ≠ (i, A) → z.2.enabled = true →
      (matches_request ext pm z.1 z.2.request method path qs headers body).isSome = true →
      Rdom (i, A) z) →
    firstMatch ext pm method path qs headers body l = some ⟨A, ctx⟩ := by
  intro l
  induction l with
  | nil =>
      intro _ hmem
      cases hmem
  | cons z rest ih =>
      intro hp hmem hen hm hdom
      rw [List.pairwise_cons] at hp
      rcases Classical.em (z = (i, A)) with hz | hz
      · subst hz
        unfold firstMatch
        simp [hen, hm]
      · have hmem' : (i, A) ∈ rest := by
          rcases List.mem_cons.mp hmem with h | h
          · exact absurd h.symm hz
          · exact h
        have hnsat : ¬ (z.2.enabled = true ∧
            (matches_request ext pm z.1 z.2.request method path qs headers body).isSome = true) := by
          rintro ⟨he, hs⟩
          have h1 := hdom z (List.mem_cons_self _ _) hz he hs
          have h2 := hp.1 _ hmem'
          unfold Rdom at h1 h2
          simp only at h1 h2
          omega
        unfold firstMatch
        cases he : z.2.enabled with
        | false =>
            simp only [he, Bool.not_false, if_pos]
            exact ih hp.2 hmem' hen hm
              (fun w hw => hdom w (List.mem_cons_of_mem _ hw))
        | true =>
            simp only [he, Bool.not_true, Bool.false_eq_true, if_false]
            cases hmz : matches_request ext pm z.1 z.2.request method path qs headers body with
            | some c =>
                exact absurd ⟨he, by rw [hmz]; rfl⟩ hnsat
            | none =>
                exact ih hp.2 hmem' hen hm
                  (fun w hw => hdom w (List.mem_cons_of_mem _ hw))

/-- C5: `find_match` implements priority dominance.  If the `i`-th
stub `A` is enabled and satisfies the request, and every other
enabled satisfying stub `B` at position `j` is dominated by `A`
(strictly lower priority, or equal priority and a later insertion
position), then `find_match` returns `A` with `A`'s match context; and
whatever `find_match` returns is always an enabled stub, so a disabled
stub is never selected even when its clauses all pass. -/
theorem find_match_priority_dominance (ext : ExtCrates) (stubs : List StubDefinition)
    (method path : String) (query_string : Option String)
    (headers : List (String × String)) (body : Option Bytes)
    (i : Nat) (A : StubDefinition) (ctx : MatchContext)
    (hget : stubs.get? i = some A)
    (hen : A.enabled = true)
    (hm : matches_request ext (Matcher.new stubs) i A.request method path query_string
      headers body = some ctx)
    (hdom : ∀ j B, stubs.get? j = some B → j ≠ i → B.enabled = true →
      (matches_request ext (Matcher.new stubs) j B.request method path query_string
        headers body).isSome = true →
      A.priority > B.priority ∨ (A.priority = B.priority ∧ i < j)) :
    Matcher.find_match ext (Matcher.new stubs) stubs method path query_string headers
      body = some ⟨A, ctx⟩
    ∧ (∀ r, Matcher.find_match ext (Matcher.new stubs) stubs method path query_string
        headers body = some r → r.stub.enabled = true) := by
  constructor
  · unfold Matcher.find_match
    have hmemEnum : (i, A) ∈ enumFromZ 0 stubs := by
      have := enumFromZ_get stubs 0 i A hget
      simpa using this
    apply firstMatch_dominant ext (Matcher.new stubs) method path query_string headers
      body i A ctx (sortStubs (enumFromZ 0 stubs))
      (sortStubs_pairwise _ (enumFromZ_pairwise stubs 0))
      ((mem_sortStubs _ _).mpr hmemEnum) hen hm
    intro z hz hne hzen hzm
    have hzmem : z ∈ enumFromZ 0 stubs := (mem_sortStubs _ _).mp hz
    obtain ⟨k, hk1, hk2⟩ := enumFromZ_mem_get stubs 0 z hzmem
    have hki : z.1 = k := by omega
    have hne' : k ≠ i := by
      intro hki'
      apply hne
      have : some z.2 = some A := by
        rw [← hk2, hki', hget]
      injection this with hzA
      have hzeta : z = (z.1, z.2) := rfl
      rw [hzeta, hki, hki', hzA]
    have := hdom k z.2 hk2 hne' hzen (by rw [← hki]; exact hzm)
    unfold Rdom
    simp only
    omega
  · intro r h
    exact firstMatch_enabled ext (Matcher.new stubs) method path query_string headers
      body (sortStubs (enumFromZ 0 stubs)) r h

/-- C5 witness: on the two-stub catalog `prioStubs`, both stubs pass
for `GET /api/users` and the later, higher-priority `stubHighPrio` is
selected. -/
theorem find_match_priority_dominance_witness :
    (Matcher.find_match ext0 (Matcher.new prioStubs) prioStubs "GET" "/api/users" none
      [] none = some ⟨stubHighPrio, ⟨[], [], []⟩⟩
    ∧ (∀ r, Matcher.find_match ext0 (Matcher.new prioStubs) prioStubs "GET" "/api/users"
        none [] none = some r → r.stub.enabled = true)) :=
  find_match_priority_dominance ext0 prioStubs "GET" "/api/users" none [] none 1
    stubHighPrio ⟨[], [], []⟩ rfl rfl rfl (by
      intro j B hj hne henB hmB
      cases j with
      | zero =>
          injection hj with hB
          subst hB
          left
          decide
      | succ j =>
          cases j with
          | zero => exact absurd rfl hne
          | succ j => exact Option.noConfusion hj)
